import Mathlib

/-!
Shallow embedding of `packages/hardhat/contracts/ArrowGameSecure.sol`.

The contract is a commit-reveal betting game.  We model its storage as a
`GameState` record (amounts in wei as `Nat`, addresses as `Nat`, the
`pendingBets` mapping as a function), and each external function as a pure
function `GameState → ... → Except GameError (GameState × List GameEvent)`.
An `Except.error` result models a revert: the caller's state is unchanged
and no event is emitted.  `keccak256(abi.encodePacked(...))` is modelled as
an arbitrary function `List Nat → Nat` passed explicitly to the operations
that hash.  Solidity 0.8 checked arithmetic that could underflow is
modelled by an explicit `arithmeticUnderflow` error; a failing low-level
value transfer (`require(success, ...)`) is modelled by `transferFailed`.
-/

namespace ArrowGameSecure

/-- `MAX_PAYOUT_MULTIPLIER` constant of the contract: 1.9x expressed in percent. -/
def MAX_PAYOUT_MULTIPLIER : Nat := 190

/-- `REVEAL_TIMEOUT` constant: 256 blocks. -/
def REVEAL_TIMEOUT : Nat := 256

/-- `MIN_REVEAL_DELAY` constant: at least 1 block between commit and reveal. -/
def MIN_REVEAL_DELAY : Nat := 1

/-- The `PendingBet` struct of the contract. -/
structure PendingBet where
  amount : Nat
  commitBlock : Nat
  commitHash : Nat
  resolved : Bool
deriving DecidableEq, Repr

/-- The default (all-zero) mapping entry for `pendingBets`. -/
def PendingBet.empty : PendingBet := ⟨0, 0, 0, false⟩

/-- The contract storage plus its native balance.  `balance` is
`address(this).balance`; mappings are functions from addresses (as `Nat`). -/
structure GameState where
  balance : Nat
  minBet : Nat
  maxBet : Nat
  reserveBalance : Nat
  totalGamesPlayed : Nat
  totalPayouts : Nat
  totalWagered : Nat
  playerGamesPlayed : Nat → Nat
  playerTotalWon : Nat → Nat
  playerTotalWagered : Nat → Nat
  pendingBets : Nat → PendingBet
  paused : Bool

/-- The custom errors of the contract, plus the OpenZeppelin `Pausable`
errors, the `require` failures, and checked-arithmetic underflow. -/
inductive GameError where
  | betTooSmall (sent minimum : Nat)
  | betTooLarge (sent maximum : Nat)
  | insufficientHouseBalance (available required : Nat)
  | pendingBetExists
  | noPendingBet
  | revealTooEarly (currentBlock requiredBlock : Nat)
  | revealTooLate (currentBlock deadline : Nat)
  | invalidReveal
  | enforcedPause
  | expectedPause
  | mustSendCelo
  | cannotWithdrawReserved
  | arithmeticUnderflow
  | transferFailed
deriving DecidableEq, Repr

/-- The `reason` string argument of the `BetRefunded` event. -/
inductive RefundReason where
  | revealTimeout
  | insufficientHouseBalance
deriving DecidableEq, Repr

/-- Events emitted by the contract (the ones reachable from the modelled
operations). -/
inductive GameEvent where
  | betCommitted (player amount commitHash : Nat)
  | betRevealed (player amount result payout : Nat)
  | betRefunded (player amount : Nat) (reason : RefundReason)
  | gameFunded (funder amount : Nat)
  | houseWithdraw (amount remainingReserve : Nat)
  | emergencyWithdraw (amount : Nat)
deriving DecidableEq, Repr

/-- Outcome of one transaction: either a revert (error) or the new state
together with the emitted events. -/
abbrev TxResult := Except GameError (GameState × List GameEvent)

/-- Whether a transaction succeeded (did not revert). -/
def txOk : TxResult → Bool
  | .ok _ => true
  | .error _ => false

/-- The state after a transaction from state `s`: the new state on success,
`s` itself on a revert. -/
def txState (s : GameState) : TxResult → GameState
  | .ok out => out.1
  | .error _ => s

/-- The events emitted by a transaction (none on a revert). -/
def txEvents : TxResult → List GameEvent
  | .ok out => out.2
  | .error _ => []

/-- The shared outcome block of `revealBet` and `quickBet` (lines 171-183 and
266-275 of the source are textually identical): maps the random value in
[0,100) and the bet amount to `(result, payout)`. -/
def resolveOutcome (random betAmount : Nat) : Nat × Nat :=
  if random < 15 then (2, betAmount * MAX_PAYOUT_MULTIPLIER / 100)
  else if random < 50 then (1, betAmount / 2)
  else (0, 0)

/-- The random value derived in `revealBet`:
`uint256(keccak256(abi.encodePacked(secret, blockHash, msg.sender, bet.commitBlock))) % 100`. -/
def revealRandom (keccak : List Nat → Nat) (secret blockHash sender commitBlock : Nat) : Nat :=
  keccak [secret, blockHash, sender, commitBlock] % 100

/-- The random value derived in `quickBet`:
`uint256(keccak256(abi.encodePacked(block.prevrandao, block.timestamp, msg.sender, totalGamesPlayed, blockhash(block.number - 1)))) % 100`. -/
def quickRandom (keccak : List Nat → Nat)
    (prevrandao timestamp sender totalGamesPlayed prevBlockHash : Nat) : Nat :=
  keccak [prevrandao, timestamp, sender, totalGamesPlayed, prevBlockHash] % 100

/-- `commitBet(bytes32 commitHash) external payable nonReentrant whenNotPaused`.
`value` is `msg.value` (credited to the contract balance before the body),
`blockNumber` is `block.number`. -/
def commitBet (s : GameState) (sender value blockNumber commitHash : Nat) : TxResult :=
  if s.paused = true then .error .enforcedPause else
  if value < s.minBet then .error (.betTooSmall value s.minBet) else
  if value > s.maxBet then .error (.betTooLarge value s.maxBet) else
  if (s.pendingBets sender).amount > 0 ∧ (s.pendingBets sender).resolved = false then
    .error .pendingBetExists
  else
    if (s.balance + value) - value < value * MAX_PAYOUT_MULTIPLIER / 100 then
      .error (.insufficientHouseBalance ((s.balance + value) - value)
        (value * MAX_PAYOUT_MULTIPLIER / 100))
    else
      .ok ({ s with
              balance := s.balance + value,
              pendingBets := fun a =>
                if a = sender then ⟨value, blockNumber, commitHash, false⟩ else s.pendingBets a,
              reserveBalance := s.reserveBalance + value * MAX_PAYOUT_MULTIPLIER / 100 },
           [.betCommitted sender value commitHash])

/-- `revealBet(bytes32 secret) external nonReentrant whenNotPaused`.
`blockHash` is `blockhash(bet.commitBlock + 1)`. -/
def revealBet (keccak : List Nat → Nat) (s : GameState)
    (sender secret blockNumber blockHash : Nat) : TxResult :=
  if s.paused = true then .error .enforcedPause else
  if (s.pendingBets sender).amount = 0 ∨ (s.pendingBets sender).resolved = true then
    .error .noPendingBet
  else
  if blockNumber ≤ (s.pendingBets sender).commitBlock + MIN_REVEAL_DELAY then
    .error (.revealTooEarly blockNumber ((s.pendingBets sender).commitBlock + MIN_REVEAL_DELAY + 1))
  else
  if blockNumber > (s.pendingBets sender).commitBlock + REVEAL_TIMEOUT then
    .error (.revealTooLate blockNumber ((s.pendingBets sender).commitBlock + REVEAL_TIMEOUT))
  else
  if keccak [secret, sender] ≠ (s.pendingBets sender).commitHash then .error .invalidReveal else
  if s.reserveBalance < (s.pendingBets sender).amount * MAX_PAYOUT_MULTIPLIER / 100 then
    .error .arithmeticUnderflow
  else
  if 0 < (resolveOutcome
            (revealRandom keccak secret blockHash sender (s.pendingBets sender).commitBlock)
            (s.pendingBets sender).amount).2 then
    if s.balance < (resolveOutcome
          (revealRandom keccak secret blockHash sender (s.pendingBets sender).commitBlock)
          (s.pendingBets sender).amount).2 then
      .error .transferFailed
    else
      .ok ({ s with
              pendingBets := fun a =>
                if a = sender then { s.pendingBets sender with resolved := true }
                else s.pendingBets a,
              reserveBalance :=
                s.reserveBalance - (s.pendingBets sender).amount * MAX_PAYOUT_MULTIPLIER / 100,
              totalGamesPlayed := s.totalGamesPlayed + 1,
              totalWagered := s.totalWagered + (s.pendingBets sender).amount,
              playerGamesPlayed := fun a =>
                if a = sender then s.playerGamesPlayed a + 1 else s.playerGamesPlayed a,
              playerTotalWagered := fun a =>
                if a = sender then s.playerTotalWagered a + (s.pendingBets sender).amount
                else s.playerTotalWagered a,
              totalPayouts := s.totalPayouts +
                (resolveOutcome
                  (revealRandom keccak secret blockHash sender (s.pendingBets sender).commitBlock)
                  (s.pendingBets sender).amount).2,
              playerTotalWon := fun a =>
                if a = sender then
                  s.playerTotalWon a +
                    (resolveOutcome
                      (revealRandom keccak secret blockHash sender
                        (s.pendingBets sender).commitBlock)
                      (s.pendingBets sender).amount).2
                else s.playerTotalWon a,
              balance := s.balance -
                (resolveOutcome
                  (revealRandom keccak secret blockHash sender (s.pendingBets sender).commitBlock)
                  (s.pendingBets sender).amount).2 },
           [.betRevealed sender (s.pendingBets sender).amount
              (resolveOutcome
                (revealRandom keccak secret blockHash sender (s.pendingBets sender).commitBlock)
                (s.pendingBets sender).amount).1
              (resolveOutcome
                (revealRandom keccak secret blockHash sender (s.pendingBets sender).commitBlock)
                (s.pendingBets sender).amount).2])
  else
    .ok ({ s with
            pendingBets := fun a =>
              if a = sender then { s.pendingBets sender with resolved := true }
              else s.pendingBets a,
            reserveBalance :=
              s.reserveBalance - (s.pendingBets sender).amount * MAX_PAYOUT_MULTIPLIER / 100,
            totalGamesPlayed := s.totalGamesPlayed + 1,
            totalWagered := s.totalWagered + (s.pendingBets sender).amount,
            playerGamesPlayed := fun a =>
              if a = sender then s.playerGamesPlayed a + 1 else s.playerGamesPlayed a,
            playerTotalWagered := fun a =>
              if a = sender then s.playerTotalWagered a + (s.pendingBets sender).amount
              else s.playerTotalWagered a },
         [.betRevealed sender (s.pendingBets sender).amount
            (resolveOutcome
              (revealRandom keccak secret blockHash sender (s.pendingBets sender).commitBlock)
              (s.pendingBets sender).amount).1
            0])

/-- `refundExpiredBet() external nonReentrant` — note: no `whenNotPaused`
modifier in the source. -/
def refundExpiredBet (s : GameState) (sender blockNumber : Nat) : TxResult :=
  if (s.pendingBets sender).amount = 0 ∨ (s.pendingBets sender).resolved = true then
    .error .noPendingBet
  else
  if blockNumber ≤ (s.pendingBets sender).commitBlock + REVEAL_TIMEOUT then
    .error (.revealTooEarly blockNumber ((s.pendingBets sender).commitBlock + REVEAL_TIMEOUT + 1))
  else
  if s.reserveBalance < (s.pendingBets sender).amount * MAX_PAYOUT_MULTIPLIER / 100 then
    .error .arithmeticUnderflow
  else
  if s.balance < (s.pendingBets sender).amount then .error .transferFailed
  else
    .ok ({ s with
            pendingBets := fun a =>
              if a = sender then { s.pendingBets sender with resolved := true }
              else s.pendingBets a,
            reserveBalance :=
              s.reserveBalance - (s.pendingBets sender).amount * MAX_PAYOUT_MULTIPLIER / 100,
            balance := s.balance - (s.pendingBets sender).amount },
         [.betRefunded sender (s.pendingBets sender).amount .revealTimeout])

/-- `quickBet() external payable nonReentrant whenNotPaused`.  `value` is
`msg.value`.  When the house cannot cover the worst-case payout the stake is
returned and the call SUCCEEDS (it is not a revert). -/
def quickBet (keccak : List Nat → Nat) (s : GameState)
    (sender value prevrandao timestamp prevBlockHash : Nat) : TxResult :=
  if s.paused = true then .error .enforcedPause else
  if value < s.minBet then .error (.betTooSmall value s.minBet) else
  if value > s.maxBet then .error (.betTooLarge value s.maxBet) else
  if (s.balance + value) - value < value * MAX_PAYOUT_MULTIPLIER / 100 then
    .ok ({ s with balance := (s.balance + value) - value },
         [.betRefunded sender value .insufficientHouseBalance])
  else
  if 0 < (resolveOutcome
            (quickRandom keccak prevrandao timestamp sender s.totalGamesPlayed prevBlockHash)
            value).2 then
    if s.balance + value < (resolveOutcome
          (quickRandom keccak prevrandao timestamp sender s.totalGamesPlayed prevBlockHash)
          value).2 then
      .error .transferFailed
    else
      .ok ({ s with
              balance := (s.balance + value) -
                (resolveOutcome
                  (quickRandom keccak prevrandao timestamp sender s.totalGamesPlayed prevBlockHash)
                  value).2,
              totalGamesPlayed := s.totalGamesPlayed + 1,
              totalWagered := s.totalWagered + value,
              playerGamesPlayed := fun a =>
                if a = sender then s.playerGamesPlayed a + 1 else s.playerGamesPlayed a,
              playerTotalWagered := fun a =>
                if a = sender then s.playerTotalWagered a + value else s.playerTotalWagered a,
              totalPayouts := s.totalPayouts +
                (resolveOutcome
                  (quickRandom keccak prevrandao timestamp sender s.totalGamesPlayed prevBlockHash)
                  value).2,
              playerTotalWon := fun a =>
                if a = sender then
                  s.playerTotalWon a +
                    (resolveOutcome
                      (quickRandom keccak prevrandao timestamp sender s.totalGamesPlayed
                        prevBlockHash) value).2
                else s.playerTotalWon a },
           [.betRevealed sender value
              (resolveOutcome
                (quickRandom keccak prevrandao timestamp sender s.totalGamesPlayed prevBlockHash)
                value).1
              (resolveOutcome
                (quickRandom keccak prevrandao timestamp sender s.totalGamesPlayed prevBlockHash)
                value).2])
  else
    .ok ({ s with
            balance := s.balance + value,
            totalGamesPlayed := s.totalGamesPlayed + 1,
            totalWagered := s.totalWagered + value,
            playerGamesPlayed := fun a =>
              if a = sender then s.playerGamesPlayed a + 1 else s.playerGamesPlayed a,
            playerTotalWagered := fun a =>
              if a = sender then s.playerTotalWagered a + value else s.playerTotalWagered a },
         [.betRevealed sender value
            (resolveOutcome
              (quickRandom keccak prevrandao timestamp sender s.totalGamesPlayed prevBlockHash)
              value).1
            0])

/-- `fundHouse() external payable`: `require(msg.value > 0, "Must send CELO")`. -/
def fundHouse (s : GameState) (sender value : Nat) : TxResult :=
  if value = 0 then .error .mustSendCelo
  else .ok ({ s with balance := s.balance + value }, [.gameFunded sender value])

/-- `withdrawHouse(uint256 amount) external onlyOwner` (modelled as invoked by
the owner).  `available = address(this).balance - reserveBalance` is checked
arithmetic; then `require(amount <= available)`. -/
def withdrawHouse (s : GameState) (amount : Nat) : TxResult :=
  if s.balance < s.reserveBalance then .error .arithmeticUnderflow else
  if amount > s.balance - s.reserveBalance then .error .cannotWithdrawReserved
  else
    .ok ({ s with balance := s.balance - amount }, [.houseWithdraw amount s.reserveBalance])

/-- `pause() external onlyOwner` — OpenZeppelin `_pause` requires not paused. -/
def pause (s : GameState) : TxResult :=
  if s.paused = true then .error .enforcedPause
  else .ok ({ s with paused := true }, [])

/-- `unpause() external onlyOwner` — OpenZeppelin `_unpause` requires paused. -/
def unpause (s : GameState) : TxResult :=
  if s.paused = false then .error .expectedPause
  else .ok ({ s with paused := false }, [])

/-- `emergencyWithdraw() external onlyOwner whenPaused`: transfers the ENTIRE
contract balance (including `reserveBalance`) to the owner. -/
def emergencyWithdraw (s : GameState) : TxResult :=
  if s.paused = false then .error .expectedPause
  else .ok ({ s with balance := 0 }, [.emergencyWithdraw s.balance])

/-- One external call of the contract together with its environment
(block number, hashes, entropy), for building operation sequences. -/
inductive Op where
  | commitBet (sender value blockNumber commitHash : Nat)
  | revealBet (sender secret blockNumber blockHash : Nat)
  | refundExpiredBet (sender blockNumber : Nat)
  | quickBet (sender value prevrandao timestamp prevBlockHash : Nat)
  | fundHouse (sender value : Nat)
  | withdrawHouse (amount : Nat)
  | pause
  | unpause
  | emergencyWithdraw
deriving DecidableEq, Repr

/-- Transaction semantics of one operation: a revert leaves the state
unchanged. -/
def step (keccak : List Nat → Nat) (s : GameState) (op : Op) : GameState :=
  match (match op with
    | .commitBet a v bn ch => commitBet s a v bn ch
    | .revealBet a sec bn bh => revealBet keccak s a sec bn bh
    | .refundExpiredBet a bn => refundExpiredBet s a bn
    | .quickBet a v pr ts pbh => quickBet keccak s a v pr ts pbh
    | .fundHouse a v => fundHouse s a v
    | .withdrawHouse amt => withdrawHouse s amt
    | .pause => pause s
    | .unpause => unpause s
    | .emergencyWithdraw => emergencyWithdraw s : TxResult) with
  | .ok out => out.1
  | .error _ => s

/-- Run a sequence of operations from a state. -/
def run (keccak : List Nat → Nat) (s : GameState) (ops : List Op) : GameState :=
  ops.foldl (step keccak) s

/-- A stand-in hash function for concrete executions (claims only depend on
hash equality, never on the hash values themselves). -/
def testKeccak (l : List Nat) : Nat :=
  l.foldl (fun a b => a * 1000003 + b + 1) 7

/-- The contract state right after the constructor, except that the owner has
set the bet limits to the spec's scenario values `minBet = 500`,
`maxBet = 5000` via `updateBetLimits` (both accepted by its range checks). -/
def baseState : GameState where
  balance := 0
  minBet := 500
  maxBet := 5000
  reserveBalance := 0
  totalGamesPlayed := 0
  totalPayouts := 0
  totalWagered := 0
  playerGamesPlayed := fun _ => 0
  playerTotalWon := fun _ => 0
  playerTotalWagered := fun _ => 0
  pendingBets := fun _ => PendingBet.empty
  paused := false

/-- Operation sequence for the solvency analysis: the owner funds the house
with exactly one worst-case payout (1900), then three distinct players each
commit a stake of 1000 in the same block. -/
def solvencyTrace : List Op :=
  [ .fundHouse 9 1900,
    .commitBet 1 1000 10 111,
    .commitBet 2 1000 10 222,
    .commitBet 3 1000 10 333 ]

/-- State after running `solvencyTrace` from `baseState`. -/
def solvencyFinal : GameState := run testKeccak baseState solvencyTrace

/-- State after funding 1900 and two commits of 1000 (senders 1 and 2):
`balance = 3900`, `reserveBalance = 3800`. -/
def twoCommitState : GameState :=
  run testKeccak baseState
    [.fundHouse 9 1900, .commitBet 1 1000 10 111, .commitBet 2 1000 10 222]

/-- State with one committed bet (sender 1, stake 1000, commit block 10,
commit hash 111): `balance = 2900`, `reserveBalance = 1900`. -/
def oneCommitState : GameState :=
  run testKeccak baseState [.fundHouse 9 1900, .commitBet 1 1000 10 111]

/-- `oneCommitState` after the owner pauses the contract. -/
def pausedCommitState : GameState := run testKeccak oneCommitState [.pause]

/-- A secret and its commitment digest for sender 1 under `testKeccak`. -/
def secretEx : Nat := 42

/-- The digest `keccak(secret, sender)` for `secretEx` and sender 1. -/
def commitHashEx : Nat := testKeccak [secretEx, 1]

/-- State with a revealable committed bet: sender 1 committed stake 1000 at
block 10 with the digest of `secretEx`. -/
def revealableState : GameState :=
  run testKeccak baseState [.fundHouse 9 1900, .commitBet 1 1000 10 commitHashEx]

/-- C1: the solvency invariant `reservedLiability ≤ totalBalance` FAILS on the
code.  With the house funded for exactly one worst-case payout, the commit
check `address(this).balance - msg.value < maxPayout` never subtracts
`reserveBalance`, so three concurrent commits of stake 1000 are all accepted
and leave `reserveBalance = 5700 > 4900 = balance`.  (Each commit did add
exactly `stake*190/100` to the reserve, so the second half of the claim is
what makes the violation a solvency break.) -/
theorem commitBet_breaks_solvency_invariant :
    solvencyFinal.reserveBalance = 5700 ∧ solvencyFinal.balance = 4900 ∧
    solvencyFinal.balance < solvencyFinal.reserveBalance := by decide

/-- C2: `commitBet` does NOT perform the claimed check.  In `twoCommitState`
(balance 3900, reserveBalance 3800) a third player commits stake 1000, within
bounds and with no pending bet; the claim requires failure with
`InsufficientHouseBalance` because `totalBalance − reservedLiability =
4900 − 3800 = 1100 < 1900`, but the code only checks
`balance − msg.value = 3900 ≥ 1900` and accepts the bet. -/
theorem commitBet_ignores_reserveBalance_in_check :
    twoCommitState.minBet ≤ 1000 ∧ 1000 ≤ twoCommitState.maxBet ∧
    (twoCommitState.pendingBets 3).amount = 0 ∧
    (twoCommitState.balance + 1000) - twoCommitState.reserveBalance
      < 1000 * MAX_PAYOUT_MULTIPLIER / 100 ∧
    txOk (commitBet twoCommitState 3 1000 12 333) = true ∧
    (txState twoCommitState (commitBet twoCommitState 3 1000 12 333)).reserveBalance = 5700 := by
  decide

/-- C3 counterexample: `emergencyWithdraw` is an owner-level operation that
does transfer out funds counted in `reservedLiability`.  In
`pausedCommitState` (balance 2900, reserveBalance 1900, so only 1000 is
unreserved) it succeeds and sends the whole 2900 to the owner, leaving
balance 0 < reserveBalance. -/
theorem emergencyWithdraw_takes_reserved_funds :
    pausedCommitState.reserveBalance = 1900 ∧
    pausedCommitState.balance = 2900 ∧
    pausedCommitState.balance - pausedCommitState.reserveBalance < 2900 ∧
    txOk (emergencyWithdraw pausedCommitState) = true ∧
    (txState pausedCommitState (emergencyWithdraw pausedCommitState)).balance = 0 ∧
    txEvents (emergencyWithdraw pausedCommitState) = [.emergencyWithdraw 2900] := by
  decide

/-- C3 amended: `withdrawHouse` (the ordinary owner withdrawal) rejects any
amount above `balance − reserveBalance`, so after any successful
`withdrawHouse` the remaining balance still covers `reserveBalance`; but
`emergencyWithdraw`, available to the owner whenever the contract is paused,
withdraws the entire balance including reserved funds. -/
theorem withdrawHouse_protects_reserve_but_emergencyWithdraw_does_not :
    (∀ (s : GameState) (amount : Nat), txOk (withdrawHouse s amount) = true →
      amount ≤ s.balance - s.reserveBalance ∧
        (txState s (withdrawHouse s amount)).reserveBalance
          ≤ (txState s (withdrawHouse s amount)).balance) ∧
    (∀ s : GameState, s.paused = true →
      txOk (emergencyWithdraw s) = true ∧ (txState s (emergencyWithdraw s)).balance = 0) := by
  constructor
  · intro s amount h
    simp only [withdrawHouse] at h ⊢
    split_ifs at h ⊢ with h1 h2
    · exact absurd h (by simp [txOk])
    · exact absurd h (by simp [txOk])
    · simp only [gt_iff_lt, not_lt] at h1 h2
      exact ⟨h2, by simp only [txState]; omega⟩
  · intro s hp
    simp [emergencyWithdraw, hp, txOk, txState]

/-- Witness for the amended C3 statement: a concrete successful
`withdrawHouse` of 500 out of `oneCommitState` (available 1000), and the
concrete paused-state emergency drain. -/
theorem withdrawHouse_protects_reserve_witness :
    (500 ≤ oneCommitState.balance - oneCommitState.reserveBalance ∧
      (txState oneCommitState (withdrawHouse oneCommitState 500)).reserveBalance
        ≤ (txState oneCommitState (withdrawHouse oneCommitState 500)).balance) ∧
    txOk (emergencyWithdraw pausedCommitState) = true ∧
    (txState pausedCommitState (emergencyWithdraw pausedCommitState)).balance = 0 :=
  ⟨withdrawHouse_protects_reserve_but_emergencyWithdraw_does_not.1 oneCommitState 500 (by decide),
   withdrawHouse_protects_reserve_but_emergencyWithdraw_does_not.2 pausedCommitState (by decide)⟩

/-- C4 counterexample: `refundExpiredBet` is NOT disabled while paused (it has
no `whenNotPaused` modifier).  In `pausedCommitState` (paused, sender 1 has a
committed bet from block 10) a refund at block 300 succeeds and changes the
state. -/
theorem refundExpiredBet_works_while_paused :
    pausedCommitState.paused = true ∧
    txOk (refundExpiredBet pausedCommitState 1 300) = true ∧
    (txState pausedCommitState (refundExpiredBet pausedCommitState 1 300)).balance = 1900 ∧
    (txState pausedCommitState (refundExpiredBet pausedCommitState 1 300)).reserveBalance = 0 := by
  decide

/-- C4 amended: while paused, `commitBet`, `revealBet` and `quickBet` all fail
(with the `Pausable` error) and leave the state unchanged; `refundExpiredBet`
is not disabled by pause — it can still succeed, as on the concrete paused
state. -/
theorem paused_disables_commit_reveal_quick_but_not_refund :
    (∀ (s : GameState) (a v bn ch : Nat), s.paused = true →
      commitBet s a v bn ch = .error .enforcedPause) ∧
    (∀ (keccak : List Nat → Nat) (s : GameState) (a sec bn bh : Nat), s.paused = true →
      revealBet keccak s a sec bn bh = .error .enforcedPause) ∧
    (∀ (keccak : List Nat → Nat) (s : GameState) (a v pr ts pbh : Nat), s.paused = true →
      quickBet keccak s a v pr ts pbh = .error .enforcedPause) ∧
    (pausedCommitState.paused = true ∧
      txOk (refundExpiredBet pausedCommitState 1 300) = true) := by
  refine ⟨?_, ?_, ?_, by decide⟩
  · intro s a v bn ch hp; simp [commitBet, hp]
  · intro keccak s a sec bn bh hp; simp [revealBet, hp]
  · intro keccak s a v pr ts pbh hp; simp [quickBet, hp]

/-- Witness for the amended C4 statement at the concrete paused state. -/
theorem paused_disables_commit_reveal_quick_witness :
    commitBet pausedCommitState 1 1000 11 5 = .error .enforcedPause ∧
    revealBet testKeccak pausedCommitState 1 5 12 6 = .error .enforcedPause ∧
    quickBet testKeccak pausedCommitState 1 1000 1 2 3 = .error .enforcedPause :=
  ⟨paused_disables_commit_reveal_quick_but_not_refund.1 pausedCommitState 1 1000 11 5 (by decide),
   paused_disables_commit_reveal_quick_but_not_refund.2.1 testKeccak pausedCommitState 1 5 12 6
     (by decide),
   paused_disables_commit_reveal_quick_but_not_refund.2.2.1 testKeccak pausedCommitState 1 1000 1
     2 3 (by decide)⟩

/-- C5: the outcome resolver (the block shared verbatim by `revealBet` and
`quickBet`) is a pure function of the random value and the stake: `r < 15`
gives Bullseye (result 2) with payout `stake*190/100` truncating, `15 ≤ r <
50` gives Ring (result 1) with payout `stake/2` truncating, `r ≥ 50` gives
Miss (result 0) with payout 0; and the random values both paths derive are
always in [0,100), so identical hash inputs give identical tier and payout. -/
theorem resolveOutcome_tiers (r stake : Nat) :
    (r < 15 → resolveOutcome r stake = (2, stake * 190 / 100)) ∧
    (15 ≤ r → r < 50 → resolveOutcome r stake = (1, stake / 2)) ∧
    (50 ≤ r → resolveOutcome r stake = (0, 0)) ∧
    (∀ (keccak : List Nat → Nat) (secret blockHash sender commitBlock : Nat),
      revealRandom keccak secret blockHash sender commitBlock < 100) ∧
    (∀ (keccak : List Nat → Nat) (prevrandao timestamp sender games prevBlockHash : Nat),
      quickRandom keccak prevrandao timestamp sender games prevBlockHash < 100) := by
  refine ⟨?_, ?_, ?_, ?_, ?_⟩
  · intro h; simp [resolveOutcome, h, MAX_PAYOUT_MULTIPLIER]
  · intro h1 h2
    rw [resolveOutcome, if_neg (by omega), if_pos h2]
  · intro h
    rw [resolveOutcome, if_neg (by omega), if_neg (by omega)]
  · intro keccak a b c d
    exact Nat.mod_lt _ (by norm_num)
  · intro keccak a b c d e
    exact Nat.mod_lt _ (by norm_num)

/-- Witness for the outcome resolver at the spec's scenario inputs
(r = 10, 30, 70 with stake 1000). -/
theorem resolveOutcome_tiers_witness :
    resolveOutcome 10 1000 = (2, 1900) ∧
    resolveOutcome 30 1000 = (1, 500) ∧
    resolveOutcome 70 1000 = (0, 0) ∧
    revealRandom testKeccak 42 99 1 10 < 100 :=
  ⟨(resolveOutcome_tiers 10 1000).1 (by decide),
   (resolveOutcome_tiers 30 1000).2.1 (by decide) (by decide),
   (resolveOutcome_tiers 70 1000).2.2.1 (by decide),
   (resolveOutcome_tiers 0 0).2.2.2.1 testKeccak 42 99 1 10⟩

/-- C9: `quickBet` never touches `reserveBalance`: whatever the environment
and whichever branch is taken (revert, silent refund for insufficient house
balance, or immediate resolution), the reserve after the transaction equals
the reserve before it. -/
theorem quickBet_preserves_reserveBalance (keccak : List Nat → Nat) (s : GameState)
    (sender value prevrandao timestamp prevBlockHash : Nat) :
    (step keccak s (.quickBet sender value prevrandao timestamp prevBlockHash)).reserveBalance
      = s.reserveBalance := by
  simp only [step, quickBet]
  split_ifs <;> rfl

/-- C10: `fundHouse` reverts (with the `"Must send CELO"` require, no state
change, no event) exactly when the funded amount is zero; for every positive
amount it succeeds, emits `GameFunded`, and changes nothing but the balance. -/
theorem fundHouse_spec (s : GameState) (sender value : Nat) :
    (value = 0 → fundHouse s sender value = .error .mustSendCelo) ∧
    (0 < value → fundHouse s sender value =
      .ok ({ s with balance := s.balance + value }, [.gameFunded sender value])) := by
  constructor
  · intro h
    simp [fundHouse, h]
  · intro h
    simp only [fundHouse]
    rw [if_neg (by omega)]

/-- Witness for `fundHouse`: the concrete funding step of the traces above,
and a rejected zero-value funding. -/
theorem fundHouse_spec_witness :
    fundHouse baseState 9 1900 =
      .ok ({ baseState with balance := baseState.balance + 1900 }, [.gameFunded 9 1900]) ∧
    fundHouse baseState 9 0 = .error .mustSendCelo :=
  ⟨(fundHouse_spec baseState 9 1900).2 (by decide), (fundHouse_spec baseState 9 0).1 rfl⟩

/-- C6: for a committed (unresolved, nonzero) bet with the contract not
paused, `revealBet` fails with `RevealTooEarly` exactly when the current
block is not strictly greater than `commitBlock + 1`, with `RevealTooLate`
exactly when the current block exceeds `commitBlock + 256`, and with
`InvalidReveal` exactly when the block is inside the window but the digest
recomputed from (secret, caller) differs from the stored one.  A revert
leaves the state — in particular the `Committed` bet — unchanged, so the
reveal stays retryable within the window. -/
theorem revealBet_error_conditions (keccak : List Nat → Nat) (s : GameState)
    (sender secret blockNumber blockHash : Nat)
    (hpause : s.paused = false)
    (hamt : (s.pendingBets sender).amount ≠ 0)
    (hres : (s.pendingBets sender).resolved = false) :
    (revealBet keccak s sender secret blockNumber blockHash =
        .error (.revealTooEarly blockNumber
          ((s.pendingBets sender).commitBlock + MIN_REVEAL_DELAY + 1))
      ↔ blockNumber ≤ (s.pendingBets sender).commitBlock + MIN_REVEAL_DELAY) ∧
    (revealBet keccak s sender secret blockNumber blockHash =
        .error (.revealTooLate blockNumber
          ((s.pendingBets sender).commitBlock + REVEAL_TIMEOUT))
      ↔ (s.pendingBets sender).commitBlock + REVEAL_TIMEOUT < blockNumber) ∧
    (revealBet keccak s sender secret blockNumber blockHash = .error .invalidReveal
      ↔ ((s.pendingBets sender).commitBlock + MIN_REVEAL_DELAY < blockNumber ∧
          blockNumber ≤ (s.pendingBets sender).commitBlock + REVEAL_TIMEOUT ∧
          keccak [secret, sender] ≠ (s.pendingBets sender).commitHash)) := by
  have hnp : ¬((s.pendingBets sender).amount = 0 ∨ (s.pendingBets sender).resolved = true) := by
    simp [hamt, hres]
  unfold revealBet
  rw [if_neg (show ¬(s.paused = true) by simp [hpause]), if_neg hnp]
  split_ifs with h1 h2 h3 h4 h5 h6 <;> simp_all [MIN_REVEAL_DELAY, REVEAL_TIMEOUT]
  all_goals omega

/-- Witness for the reveal error conditions, instantiated at the committed
bet of `oneCommitState` (commit block 10) with a too-early reveal at block 5. -/
theorem revealBet_error_conditions_witness :
    revealBet testKeccak oneCommitState 1 42 5 99 =
      .error (.revealTooEarly 5 ((oneCommitState.pendingBets 1).commitBlock
        + MIN_REVEAL_DELAY + 1)) :=
  (revealBet_error_conditions testKeccak oneCommitState 1 42 5 99 (by decide) (by decide)
    (by decide)).1.mpr (by decide)

/-- C7 counterexample: the stake-bound checks run BEFORE the pending-bet
check, so a second commit by a caller with a committed bet does not always
fail with `PendingBetExists`: with a stake below `minBet` it fails with
`BetTooSmall` instead. -/
theorem second_commit_can_fail_with_other_error :
    (oneCommitState.pendingBets 1).amount > 0 ∧
    (oneCommitState.pendingBets 1).resolved = false ∧
    commitBet oneCommitState 1 0 12 7 = .error (.betTooSmall 0 oneCommitState.minBet) ∧
    commitBet oneCommitState 1 0 12 7 ≠ .error .pendingBetExists := by
  refine ⟨by decide, by decide, rfl, ?_⟩
  intro h
  exact GameError.noConfusion (Except.error.inj
    (h : (Except.error (GameError.betTooSmall 0 oneCommitState.minBet) : TxResult) =
      .error .pendingBetExists))

/-- C7 amended: a second `commitBet` by a caller that already has a committed
(unresolved) bet never succeeds (so treasury and ledger are unchanged, a
revert); when the contract is not paused and the new stake is within
`[minBet, maxBet]` the failure is precisely `PendingBetExists`; an
out-of-range stake fails with the stake-bound error instead. -/
theorem second_commit_always_fails (s : GameState) (sender value blockNumber commitHash : Nat)
    (hamt : (s.pendingBets sender).amount > 0)
    (hres : (s.pendingBets sender).resolved = false) :
    txOk (commitBet s sender value blockNumber commitHash) = false ∧
    (s.paused = false → s.minBet ≤ value → value ≤ s.maxBet →
      commitBet s sender value blockNumber commitHash = .error .pendingBetExists) := by
  constructor
  · unfold commitBet
    split_ifs with h1 h2 h3 h4 h5 <;> first | rfl | exact absurd ⟨hamt, hres⟩ h4
  · intro hp hmin hmax
    unfold commitBet
    rw [if_neg (show ¬(s.paused = true) by simp [hp]), if_neg (by omega), if_neg (by omega),
      if_pos ⟨hamt, hres⟩]

/-- Witness for the amended C7 statement: sender 1 of `oneCommitState`
recommits an in-range stake and gets `PendingBetExists`. -/
theorem second_commit_always_fails_witness :
    txOk (commitBet oneCommitState 1 1000 12 7) = false ∧
    commitBet oneCommitState 1 1000 12 7 = .error .pendingBetExists :=
  ⟨(second_commit_always_fails oneCommitState 1 1000 12 7 (by decide) (by decide)).1,
   (second_commit_always_fails oneCommitState 1 1000 12 7 (by decide) (by decide)).2
     (by decide) (by decide) (by decide)⟩

/-- Inversion for a successful `revealBet`: the new state marks the caller's
ledger entry resolved and keeps the pause flag (which the success shows was
off). -/
theorem revealBet_ok_post (keccak : List Nat → Nat) (s : GameState)
    (sender secret blockNumber blockHash : Nat) (out : GameState × List GameEvent)
    (h : revealBet keccak s sender secret blockNumber blockHash = .ok out) :
    (out.1.pendingBets sender).resolved = true ∧ out.1.paused = false := by
  unfold revealBet at h
  by_cases h1 : s.paused = true
  · rw [if_pos h1] at h; exact Except.noConfusion h
  rw [if_neg h1] at h
  by_cases h2 : (s.pendingBets sender).amount = 0 ∨ (s.pendingBets sender).resolved = true
  · rw [if_pos h2] at h; exact Except.noConfusion h
  rw [if_neg h2] at h
  by_cases h3 : blockNumber ≤ (s.pendingBets sender).commitBlock + MIN_REVEAL_DELAY
  · rw [if_pos h3] at h; exact Except.noConfusion h
  rw [if_neg h3] at h
  by_cases h4 : blockNumber > (s.pendingBets sender).commitBlock + REVEAL_TIMEOUT
  · rw [if_pos h4] at h; exact Except.noConfusion h
  rw [if_neg h4] at h
  by_cases h5 : keccak [secret, sender] ≠ (s.pendingBets sender).commitHash
  · rw [if_pos h5] at h; exact Except.noConfusion h
  rw [if_neg h5] at h
  by_cases h6 : s.reserveBalance < (s.pendingBets sender).amount * MAX_PAYOUT_MULTIPLIER / 100
  · rw [if_pos h6] at h; exact Except.noConfusion h
  rw [if_neg h6] at h
  by_cases h7 : 0 < (resolveOutcome
      (revealRandom keccak secret blockHash sender (s.pendingBets sender).commitBlock)
      (s.pendingBets sender).amount).2
  · rw [if_pos h7] at h
    by_cases h8 : s.balance < (resolveOutcome
        (revealRandom keccak secret blockHash sender (s.pendingBets sender).commitBlock)
        (s.pendingBets sender).amount).2
    · rw [if_pos h8] at h; exact Except.noConfusion h
    rw [if_neg h8] at h
    injection h with hh
    subst hh
    exact ⟨by simp, by simpa using h1⟩
  · rw [if_neg h7] at h
    injection h with hh
    subst hh
    exact ⟨by simp, by simpa using h1⟩

/-- Inversion for a successful `refundExpiredBet`: the new state marks the
caller's ledger entry resolved. -/
theorem refundExpiredBet_ok_post (s : GameState) (sender blockNumber : Nat)
    (out : GameState × List GameEvent)
    (h : refundExpiredBet s sender blockNumber = .ok out) :
    (out.1.pendingBets sender).resolved = true := by
  unfold refundExpiredBet at h
  split_ifs at h with h1 h2 h3 h4
  injection h with hh
  subst hh
  simp

/-- After a successful `revealBet` the caller's ledger entry is marked
resolved and the contract is still unpaused. -/
theorem revealBet_ok_marks_resolved (keccak : List Nat → Nat) (s : GameState)
    (sender secret blockNumber blockHash : Nat)
    (h : txOk (revealBet keccak s sender secret blockNumber blockHash) = true) :
    ((txState s (revealBet keccak s sender secret blockNumber blockHash)).pendingBets
        sender).resolved = true ∧
    (txState s (revealBet keccak s sender secret blockNumber blockHash)).paused = false := by
  cases hr : revealBet keccak s sender secret blockNumber blockHash with
  | error e => rw [hr] at h; exact absurd h (by simp [txOk])
  | ok out =>
    have hpost := revealBet_ok_post keccak s sender secret blockNumber blockHash out hr
    simpa [txState] using hpost

/-- After a successful `refundExpiredBet` the caller's ledger entry is marked
resolved. -/
theorem refundExpiredBet_ok_marks_resolved (s : GameState) (sender blockNumber : Nat)
    (h : txOk (refundExpiredBet s sender blockNumber) = true) :
    ((txState s (refundExpiredBet s sender blockNumber)).pendingBets sender).resolved = true := by
  cases hr : refundExpiredBet s sender blockNumber with
  | error e => rw [hr] at h; exact absurd h (by simp [txOk])
  | ok out =>
    have hpost := refundExpiredBet_ok_post s sender blockNumber out hr
    simpa [txState] using hpost

/-- A resolved ledger entry makes `revealBet` fail with `NoPendingBet`
(when not paused). -/
theorem resolved_bet_blocks_reveal (keccak : List Nat → Nat) (s : GameState)
    (sender secret blockNumber blockHash : Nat)
    (hres : (s.pendingBets sender).resolved = true) (hp : s.paused = false) :
    revealBet keccak s sender secret blockNumber blockHash = .error .noPendingBet := by
  unfold revealBet
  rw [if_neg (show ¬(s.paused = true) by simp [hp]), if_pos (Or.inr hres)]

/-- A resolved ledger entry makes `refundExpiredBet` fail with
`NoPendingBet`. -/
theorem resolved_bet_blocks_refund (s : GameState) (sender blockNumber : Nat)
    (hres : (s.pendingBets sender).resolved = true) :
    refundExpiredBet s sender blockNumber = .error .noPendingBet := by
  unfold refundExpiredBet
  rw [if_pos (Or.inr hres)]

/-- A resolved ledger entry means `revealBet` can never succeed, paused or
not. -/
theorem resolved_bet_reveal_never_ok (keccak : List Nat → Nat) (s : GameState)
    (sender secret blockNumber blockHash : Nat)
    (hres : (s.pendingBets sender).resolved = true) :
    txOk (revealBet keccak s sender secret blockNumber blockHash) = false := by
  cases hp : s.paused
  · rw [resolved_bet_blocks_reveal keccak s sender secret blockNumber blockHash hres hp]
    rfl
  · unfold revealBet
    rw [if_pos hp]
    rfl

/-- C8: reveal and refund are mutually exclusive terminal transitions for a
bet instance.  Once `revealBet` succeeds, any further `revealBet` or
`refundExpiredBet` for that bet fails with `NoPendingBet`; once
`refundExpiredBet` succeeds, any further `refundExpiredBet` fails with
`NoPendingBet`, a further `revealBet` can never succeed, and (when not
paused, the only regime in which `revealBet` gets past its pause modifier)
it also fails with `NoPendingBet`.  A bet is therefore never paid out or
refunded twice. -/
theorem resolve_exactly_once (keccak : List Nat → Nat) (s : GameState)
    (sender secret blockNumber blockHash sec2 bn2 bh2 bn3 : Nat) :
    (txOk (revealBet keccak s sender secret blockNumber blockHash) = true →
      revealBet keccak (txState s (revealBet keccak s sender secret blockNumber blockHash))
          sender sec2 bn2 bh2 = .error .noPendingBet ∧
        refundExpiredBet (txState s (revealBet keccak s sender secret blockNumber blockHash))
          sender bn3 = .error .noPendingBet) ∧
    (txOk (refundExpiredBet s sender blockNumber) = true →
      refundExpiredBet (txState s (refundExpiredBet s sender blockNumber)) sender bn3 =
          .error .noPendingBet ∧
        txOk (revealBet keccak (txState s (refundExpiredBet s sender blockNumber))
          sender sec2 bn2 bh2) = false ∧
        ((txState s (refundExpiredBet s sender blockNumber)).paused = false →
          revealBet keccak (txState s (refundExpiredBet s sender blockNumber))
            sender sec2 bn2 bh2 = .error .noPendingBet)) := by
  constructor
  · intro h
    obtain ⟨hres, hp⟩ :=
      revealBet_ok_marks_resolved keccak s sender secret blockNumber blockHash h
    exact ⟨resolved_bet_blocks_reveal keccak _ sender sec2 bn2 bh2 hres hp,
      resolved_bet_blocks_refund _ sender bn3 hres⟩
  · intro h
    have hres := refundExpiredBet_ok_marks_resolved s sender blockNumber h
    exact ⟨resolved_bet_blocks_refund _ sender bn3 hres,
      resolved_bet_reveal_never_ok keccak _ sender sec2 bn2 bh2 hres,
      fun hp => resolved_bet_blocks_reveal keccak _ sender sec2 bn2 bh2 hres hp⟩

/-- Witness for resolve-exactly-once: in `revealableState` sender 1 reveals
the committed secret successfully at block 12; afterwards both a refund and a
second reveal are rejected with `NoPendingBet`. -/
theorem resolve_exactly_once_witness :
    refundExpiredBet (txState revealableState
        (revealBet testKeccak revealableState 1 secretEx 12 99)) 1 300 =
      .error .noPendingBet ∧
    revealBet testKeccak (txState revealableState
        (revealBet testKeccak revealableState 1 secretEx 12 99)) 1 secretEx 13 99 =
      .error .noPendingBet :=
  ⟨((resolve_exactly_once testKeccak revealableState 1 secretEx 12 99 secretEx 13 99 300).1
      (by decide)).2,
   ((resolve_exactly_once testKeccak revealableState 1 secretEx 12 99 secretEx 13 99 300).1
      (by decide)).1⟩

end ArrowGameSecure
